/-
Verification of the structural-edit engine of the `directive` schematic
(`packages/schematics/angular/directive/index.ts`).

The development shallowly embeds the schematic's code.  External collaborators
that live elsewhere in the repository (the vendored TypeScript parser, the
`ast-utils`, `change`, `workspace`, `find-module`, `parse-name` and
`validation` utilities, and the `@angular-devkit` string helpers) are modelled
from the specification, as noted on each such definition.  Everything else is
translated line by line from `directive/index.ts`.
-/
import Mathlib

set_option autoImplicit false

namespace DirectiveSchematic

/-! ### String helpers -/

/-- JS truthiness of a string: the empty string is falsy, everything else truthy. -/
def jsTruthyString (s : String) : Bool := !(s == "")

/-- Separator characters of the camelize regular expression `(-|_|\.|\s)+(.)?`.
Whitespace is ASCII whitespace, which covers every input built here. -/
def isCamelSep (c : Char) : Bool :=
  c == '-' || c == '_' || c == '.' || c.isWhitespace

/-- Core of `camelize`: drop separator runs and uppercase the character that
follows a run.  The flag records whether a separator run is pending. -/
def camelizeAux : Bool → List Char → List Char
  | _, [] => []
  | pending, c :: cs =>
    if isCamelSep c then camelizeAux true cs
    else if pending then c.toUpper :: camelizeAux false cs
    else c :: camelizeAux false cs

/-- Modelled from the spec: the case-conversion helper `strings.camelize` of the
devkit (an external collaborator per spec section 1 and 4.1, "case-normalized
(camel form)").  It replaces `(-|_|\.|\s)+(.)?` by the uppercased captured
character and then lowercases a leading `[A-Z]`. -/
def strCamelize (s : String) : String :=
  match camelizeAux false s.toList with
  | [] => String.mk []
  | c :: cs => String.mk ((if c.isUpper then c.toLower else c) :: cs)

/-- Whether `needle` is a prefix of `haystack` (as character lists). -/
def listPrefixEq : List Char → List Char → Bool
  | [], _ => true
  | _ :: _, [] => false
  | a :: as, b :: bs => a == b && listPrefixEq as bs

/-- Whether `needle` occurs as a contiguous substring of the character list. -/
def substringOccursList (needle : List Char) : List Char → Bool
  | [] => listPrefixEq needle []
  | c :: cs => listPrefixEq needle (c :: cs) || substringOccursList needle cs

/-- Whether `needle` occurs as a contiguous substring of `haystack`. -/
def substringOccurs (needle haystack : String) : Bool :=
  substringOccursList needle.toList haystack.toList

/-! ### Data model of the syntax tree

Modelled from the spec (section 3 and 4.2): the Source Parser is the vendored
TypeScript library (`third_party/.../typescript`, not under `src/`); a parsed
file is an immutable tree.  Only the node shapes consulted by the schematic are
represented. -/

/-- Property name of an object-literal property (`prop.name`). -/
inductive PropertyName where
  | identifierName (text : String)
  | stringLiteralName (text : String)
  | otherName
deriving DecidableEq

mutual
/-- The expression nodes the schematic inspects. -/
inductive TsNode where
  | objectLiteral (properties : List ObjectLiteralElement)
  /-- An array literal; `elementsEnd` is the `end` position of its `elements`
  node array, i.e. the offset just after the last element and before `]`. -/
  | arrayLiteral (elements : List TsNode) (elementsEnd : Nat)
  | identifierExpr (text : String)
  | otherExpr

/-- Members of an object literal.  `propertyAssignment` carries the source's
`name` and `initializer` fields. -/
inductive ObjectLiteralElement where
  | propertyAssignment (name : PropertyName) (value : TsNode)
  | otherElement
end

/-- Modelled from the spec (section 3, 4.2): the parsed representation of one
component file.  `componentMetadata` lists, in document order, the first
argument of each decorator application matching the requested annotation name
and originating capability (`@Component` from `@angular/core`), exactly what
the `getDecoratorMetadata` utility (in `utility/ast-utils`, not under `src/`)
returns per spec section 4.3: "enumerate all annotation applications in the
tree; filter to those whose name matches", candidates "in document order". -/
structure SourceFileAst where
  componentMetadata : List TsNode

/-- Modelled from the spec (section 4.3): `getDecoratorMetadata(source,
'Component', '@angular/core')` enumerates the matching decorator applications'
literal arguments in document order.  Our file model records exactly those
candidates, so the query returns them. -/
def getDecoratorMetadata (source : SourceFileAst) (identifier moduleName : String) :
    List TsNode :=
  source.componentMetadata

/-- `ts.isObjectLiteralExpression`. -/
def isObjectLiteralExpressionB : TsNode → Bool
  | .objectLiteral _ => true
  | _ => false

/-- The `properties` of an object literal (`[]` for other nodes; the schematic
only reads it behind an `isObjectLiteralExpression` guard). -/
def objectProperties : TsNode → List ObjectLiteralElement
  | .objectLiteral props => props
  | _ => []

/-! ### Virtual tree and edits -/

/-- Modelled from the spec (section 6): the virtual file tree, a path-indexed
set of file contents with `read`, staged update and commit. -/
def Tree := List (String × String)

/-- `tree.read(path)`: the file content, or `none` when absent (`null`). -/
def treeRead (tree : Tree) (path : String) : Option String :=
  (tree.find? (fun e => e.1 == path)).map (fun e => e.2)

/-- Commit of new content for `path` (the effect of `commitUpdate`). -/
def treeWrite (tree : Tree) (path content : String) : Tree :=
  tree.map (fun e => if e.1 == path then (path, content) else e)

/-- Modelled from the spec (section 3, "Edit"): `InsertChange` of
`utility/change` (not under `src/`): an (offset, text) insertion for one file. -/
structure InsertChange where
  path : String
  pos : Nat
  toAdd : String
deriving DecidableEq

/-- The two failure species of the edit pipeline: a thrown
`SchematicsException`, or a JavaScript runtime `TypeError`. -/
inductive EditError where
  | schematics (message : String)
  | jsTypeError (message : String)
deriving DecidableEq

/-- Insert `toAdd` at character offset `pos` of `content`
(`recorder.insertLeft` followed by commit, for a single change). -/
def applyOneInsert (content : String) (pos : Nat) (toAdd : String) : String :=
  String.mk (content.toList.take pos ++ toAdd.toList ++ content.toList.drop pos)

/-- Sort insertions by descending offset (insertion sort). -/
def insertByPosDesc (c : InsertChange) : List InsertChange → List InsertChange
  | [] => [c]
  | d :: ds => if d.pos ≤ c.pos then c :: d :: ds else d :: insertByPosDesc c ds

/-- Modelled from the spec (section 4.6): the committer applies all queued
insertions of one recorder against the original content, offset-stable
(descending-offset application). -/
def applyInsertChanges (content : String) (changes : List InsertChange) : String :=
  (changes.foldr insertByPosDesc []).foldl
    (fun acc c => applyOneInsert acc c.pos c.toAdd) content

/-! ### Error messages (verbatim from `directive/index.ts`) -/

/-- Message of line 48. -/
def componentFileNotFoundMessage (componentPath : String) : String :=
  "Component file " ++ componentPath ++ " not found."

/-- Message of line 60. -/
def declarationNotFoundMessage (componentPath : String) : String :=
  "Decorator @Component not found in " ++ componentPath ++ "."

/-- Message of line 66. -/
def malformedDeclarationMessage (componentPath : String) : String :=
  "Invalid @Component decorator content found in file " ++ componentPath ++ "."

/-- Message of line 80. -/
def missingImportsMessage (componentPath : String) : String :=
  "Property \x27imports\x27 not found in the decorator @Component in " ++
    componentPath ++ "."

/-- Message of a JavaScript `TypeError` raised by reading a member of
`undefined`. -/
def jsUndefinedReadMessage (field : String) : String :=
  "Cannot read properties of undefined (reading \x27" ++ field ++ "\x27)"

/-! ### Selector builder (lines 34-43) -/

/-- The schematic's options (`Schema as DirectiveOptions`).  The source field
`prefix` is a Lean keyword and is rendered here as `dirPrefix`; `module` is
rendered as `moduleHint`.  `none` models a field left `undefined`. -/
structure DirectiveOptions where
  name : String
  dirPrefix : Option String
  project : Option String
  path : Option String
  moduleHint : Option String
  selector : Option String
  skipTests : Bool
  flat : Bool
deriving DecidableEq

/-- Lines 34-43.  `if (options.prefix)` is a JS truthiness test (an explicitly
empty prefix fails it); the second branch requires `options.prefix ===
undefined` and a truthy `projectPrefix`. -/
def buildSelector (options : DirectiveOptions) (projectPrefix : String) : String :=
  let selector := options.name
  let selector :=
    if (match options.dirPrefix with
        | some p => jsTruthyString p
        | none => false) then
      (match options.dirPrefix with | some p => p | none => "") ++ "-" ++ selector
    else if options.dirPrefix.isNone && jsTruthyString projectPrefix then
      projectPrefix ++ "-" ++ selector
    else selector
  strCamelize selector

/-! ### Declaration locator (lines 55-61) -/

/-- The predicate of line 56: `ts.isObjectLiteralExpression(node) &&
node.properties.length > 0`. -/
def viableComponentMetadata (node : TsNode) : Bool :=
  isObjectLiteralExpressionB node && decide (0 < (objectProperties node).length)

/-- Lines 55-56: the first (document-order) `@Component` metadata candidate
whose argument is a non-empty object literal. -/
def locateComponentMetadata (source : SourceFileAst) : Option TsNode :=
  (getDecoratorMetadata source "Component" "@angular/core").find?
    viableComponentMetadata

/-! ### JavaScript dynamic-access layer for line 64

Line 64 reads `metadataNode[0].arguments[0]` where `metadataNode` is typed
`any` but holds the AST node produced by `.find(...)` on line 55.  We model the
dynamic semantics of those accesses on the values that can actually occur. -/

/-- A JS value flowing through the `any`-typed accesses of line 64: either
`undefined` or an AST node object. -/
inductive JsValue where
  | undefinedV
  | nodeV (n : TsNode)

/-- JS `v[0]`.  An AST node is a plain object without numeric index
properties, so indexing it yields `undefined`; indexing `undefined` itself
throws a `TypeError`. -/
def jsIndexZero : JsValue → Except EditError JsValue
  | .undefinedV => .error (.jsTypeError (jsUndefinedReadMessage "0"))
  | .nodeV _ => .ok .undefinedV

/-- JS `v.field`.  Reading a member of `undefined` throws a `TypeError`.  The
expression nodes that can appear here (object/array literals, identifiers) have
no `arguments` member, so the read yields `undefined`. -/
def jsMember (v : JsValue) (field : String) : Except EditError JsValue :=
  match v with
  | .undefinedV => .error (.jsTypeError (jsUndefinedReadMessage field))
  | .nodeV _ => .ok .undefinedV

/-- JS truthiness of such a value (`undefined` is falsy, objects are truthy). -/
def jsTruthyValue : JsValue → Bool
  | .undefinedV => false
  | .nodeV _ => true

/-- `ts.isObjectLiteralExpression` applied to such a value.  (In the source it
sits behind the short-circuiting `!objectLiteral ||`, so it is only ever
reached on a truthy value.) -/
def jsValueIsObjectLiteral : JsValue → Bool
  | .undefinedV => false
  | .nodeV n => isObjectLiteralExpressionB n

/-! ### Insertion-point resolution (lines 45-85) -/

/-- Lines 70-72: among `metadataNode.properties`, keep the property
assignments with identifier names and find the one named `imports`. -/
def findImportsProperty (metadataNode : TsNode) : Option ObjectLiteralElement :=
  ((objectProperties metadataNode).filter
      (fun prop =>
        match prop with
        | .propertyAssignment name _ =>
          match name with
          | .identifierName _ => true
          | _ => false
        | _ => false)).find?
    (fun prop =>
      match prop with
      | .propertyAssignment (.identifierName t) _ => t == "imports"
      | _ => false)

/-- Lines 45-85, `addDirectiveToComponentDecorator`, translated clause by
clause.  `parse` stands for `ts.createSourceFile` (the vendored parser, not
under `src/`; spec section 4.2 models it as a deterministic text-to-tree
function).  Note that line 64 evaluates `metadataNode[0].arguments[0]` on the
AST node returned by `.find(...)`: `metadataNode[0]` is `undefined`, so the
subsequent `.arguments` read throws a `TypeError` whenever a viable metadata
node was located. -/
def addDirectiveToComponentDecorator (parse : String → SourceFileAst) (tree : Tree)
    (classifiedName directivePath componentPath : String) :
    Except EditError (List InsertChange) :=
  match treeRead tree componentPath with
  | none => .error (.schematics (componentFileNotFoundMessage componentPath))
  | some sourceText =>
    let source := parse sourceText
    match locateComponentMetadata source with
    | none => .error (.schematics (declarationNotFoundMessage componentPath))
    | some metadataNode =>
      -- line 64: `const objectLiteral = metadataNode[0].arguments[0];`
      match jsIndexZero (.nodeV metadataNode) with
      | .error e => .error e
      | .ok indexed =>
        match jsMember indexed "arguments" with
        | .error e => .error e
        | .ok argsMember =>
          match jsIndexZero argsMember with
          | .error e => .error e
          | .ok objectLiteral =>
            -- lines 65-67
            if !jsTruthyValue objectLiteral || !jsValueIsObjectLiteral objectLiteral then
              .error (.schematics (malformedDeclarationMessage componentPath))
            else
              -- lines 70-83
              match findImportsProperty metadataNode with
              | some (.propertyAssignment _ (.arrayLiteral _ elementsEnd)) =>
                .ok [⟨componentPath, elementsEnd, "[" ++ classifiedName ++ "]"⟩]
              | _ => .error (.schematics (missingImportsMessage componentPath))

/-! ### Recorder application (lines 87-107) -/

/-- Line 91: the classified-name argument.  In the source it is a
SINGLE-quoted string literal, so the dollar-brace text is passed verbatim; it
is not an interpolated template (and `options` is not even in scope there). -/
def classifiedNameLiteral : String :=
  "$\x7bstrings.classify(options.name)\x7dDirective"

/-- Line 92: the relative-path argument, likewise a plain string literal. -/
def directivePathLiteral : String :=
  "./$\x7bstrings.dasherize(options.name)\x7d.directive"

/-- Lines 87-107, `addDirectiveToAppComponent`: compute the changes, then
apply them through a recorder (`beginUpdate` / `insertLeft` / `commitUpdate`). -/
def addDirectiveToAppComponent (parse : String → SourceFileAst)
    (appComponentPath : String) (tree : Tree) : Except EditError Tree :=
  match addDirectiveToComponentDecorator parse tree classifiedNameLiteral
      directivePathLiteral appComponentPath with
  | .error e => .error e
  | .ok changes =>
    match treeRead tree appComponentPath with
    | none => .error (.schematics (componentFileNotFoundMessage appComponentPath))
    | some content =>
      .ok (treeWrite tree appComponentPath (applyInsertChanges content changes))

/-- The insertion rule as constructed by the orchestrator at line 148.
`options` is in scope at the construction site, but no field of it reaches the
rule: `addDirectiveToAppComponent` only receives the component path, and the
name and path arguments of line 91-92 are fixed string literals. -/
def mkAddDirectiveRule (options : DirectiveOptions) (parse : String → SourceFileAst)
    (appComponentPath : String) : Tree → Except EditError Tree :=
  addDirectiveToAppComponent parse appComponentPath

/-- Sequential composition of two runs of one rule (the re-run scenario). -/
def runRuleTwice (rule : Tree → Except EditError Tree) (tree : Tree) :
    Except EditError Tree :=
  match rule tree with
  | .error e => .error e
  | .ok tree1 => rule tree1

/-! ### Orchestrator (lines 110-151)

The orchestrator's collaborators (workspace loading, default-path building,
module resolution, name parsing, selector validation, `getAppModulePath`, the
`addDeclarationToNgModule` rule and the templating source) live outside
`src/`; per the spec (section 6) they are supplied as an explicit environment.
The run is recorded as the document-order list of collaborator interactions. -/

/-- The slice of a workspace project consulted here.  The source field
`prefix` (`project.prefix`) is rendered as `projPrefix`. -/
structure ProjectModel where
  projPrefix : Option String
deriving DecidableEq

/-- Collaborator interactions of one orchestration run, in order. -/
inductive Event where
  | getWorkspaceEv
  | findModuleEv
  | parseNameEv
  | buildSelectorEv
  | validateSelectorEv (selector : String)
  | parseFileEv (path : String)
  | editFileEv (path : String)
  | stageFileEv (path : String)
deriving DecidableEq

/-- Whether an event is the selector-validation call. -/
def isValidateEvent : Event → Bool
  | .validateSelectorEv _ => true
  | _ => false

/-- Whether an event parses, edits or stages a file. -/
def isStructuralEvent : Event → Bool
  | .parseFileEv _ => true
  | .editFileEv _ => true
  | .stageFileEv _ => true
  | _ => false

/-- Modelled from the spec (section 6): the external collaborators of the
orchestrator.  `findModule` is the outcome of `findModuleFromOptions` (an
error is a thrown `SchematicsException` message); `parseNamePair` maps a
(path, name) pair to the parsed `(path, name)`; `appModulePathFn` is
`getAppModulePath` applied to the resolved module path (it parses that file);
`ngModuleRun`/`ngModuleTouched` are the behaviour and the touched files of the
`addDeclarationToNgModule` rule; `templatePaths`/`templateRender` describe the
templating source merged last. -/
structure OrchestratorEnv where
  workspaceProjects : List (String × ProjectModel)
  buildDefaultPath : ProjectModel → String
  findModule : Except String String
  parseNamePair : String → String → String × String
  validateSelector : String → Bool
  appModulePathFn : String → String
  ngModuleTouched : List String
  ngModuleRun : Tree → Except EditError Tree
  parse : String → SourceFileAst
  templatePaths : List String
  templateRender : String → String

/-- Display of `options.project` inside the line 116 message (JS string
interpolation renders `undefined` literally). -/
def projectDisplay : Option String → String
  | some p => p
  | none => "undefined"

/-- Message of line 116. -/
def projectMissingMessage (project : Option String) : String :=
  "Project \"" ++ projectDisplay project ++ "\" does not exist."

/-- Modelled from the spec (section 6): the validation collaborator raises a
fatal, descriptive error when the selector violates naming rules. -/
def invalidSelectorMessage (selector : String) : String :=
  "Selector " ++ selector ++ " is invalid."

/-- Line 114: `workspace.projects.get(options.project as string)`. -/
def lookupProject (ws : List (String × ProjectModel)) :
    Option String → Option ProjectModel
  | some p => ((ws.find? (fun e => e.1 == p)).map (fun e => e.2))
  | none => none

/-- Stage the rendered template files into the tree (`mergeWith`). -/
def stageTemplates (tree : Tree) (paths : List String)
    (render : String → String) : Tree :=
  paths.foldl (fun t p => (p, render p) :: t) tree

/-- Lines 119-127: the default path (`buildDefaultPath` when `options.path`
is undefined), the `parseName` write-back of name and path, and the line 123
write-back of the resolved module path. -/
def resolvedOptions (env : OrchestratorEnv) (options : DirectiveOptions)
    (project : ProjectModel) (modulePath : String) : DirectiveOptions :=
  let path0 := match options.path with
    | some p => p
    | none => env.buildDefaultPath project
  let parsed := env.parseNamePair path0 options.name
  { options with name := parsed.2, path := some parsed.1, moduleHint := some modulePath }

/-- `project.prefix || ''` of line 128. -/
def projectPrefixOf (project : ProjectModel) : String :=
  match project.projPrefix with
  | some p => p
  | none => ""

/-- Lines 142-151, the returned chain as it executes: `getAppModulePath` is
evaluated eagerly at line 148 (parsing the file passed to it, here the
resolved module path), then the chained rules run in order —
`addDeclarationToNgModule`, the directive insertion, and finally `mergeWith`
of the template source; the first failure aborts the rest. -/
def chainPhase (env : OrchestratorEnv) (options1 : DirectiveOptions)
    (modulePath : String) (tree : Tree) : List Event × Except EditError Tree :=
  let appPath := env.appModulePathFn modulePath
  let ev4 := [Event.parseFileEv modulePath]
  let ev5 := ev4 ++ env.ngModuleTouched.map Event.editFileEv
  match env.ngModuleRun tree with
  | .error e => (ev5, .error e)
  | .ok tree1 =>
    let ev6 := ev5 ++ [Event.parseFileEv appPath]
    match mkAddDirectiveRule options1 env.parse appPath tree1 with
    | .error e => (ev6, .error e)
    | .ok tree2 =>
      (ev6 ++ [Event.editFileEv appPath] ++ env.templatePaths.map Event.stageFileEv,
       .ok (stageTemplates tree2 env.templatePaths env.templateRender))

/-- Lines 110-151, the default exported rule, step by step: `getWorkspace`;
project lookup (lines 114-117); `findModuleFromOptions` (line 123);
`parseName` and the write-backs (lines 119-127, `resolvedOptions`); selector
resolution with the JS `||` short-circuit of line 128 (an empty supplied
selector is falsy and triggers `buildSelector`); `validateHtmlSelector`
(line 130); then the chain (`chainPhase`). -/
def defaultRule (env : OrchestratorEnv) (options : DirectiveOptions) (tree : Tree) :
    List Event × Except EditError Tree :=
  let ev0 := [Event.getWorkspaceEv]
  match lookupProject env.workspaceProjects options.project with
  | none => (ev0, .error (.schematics (projectMissingMessage options.project)))
  | some project =>
    let ev1 := ev0 ++ [Event.findModuleEv]
    match env.findModule with
    | .error msg => (ev1, .error (.schematics msg))
    | .ok modulePath =>
      let ev2 := ev1 ++ [Event.parseNameEv]
      let options1 := resolvedOptions env options project modulePath
      let selEv :=
        match options.selector with
        | some s =>
          if jsTruthyString s then (s, ev2)
          else (buildSelector options1 (projectPrefixOf project),
                ev2 ++ [Event.buildSelectorEv])
        | none => (buildSelector options1 (projectPrefixOf project),
                   ev2 ++ [Event.buildSelectorEv])
      let selector := selEv.1
      let ev3 := selEv.2 ++ [Event.validateSelectorEv selector]
      if !(env.validateSelector selector) then
        (ev3, .error (.schematics (invalidSelectorMessage selector)))
      else
        let post := chainPhase env options1 modulePath tree
        (ev3 ++ post.1, post.2)

/-- The selector the orchestrator builds when none was supplied: `buildSelector`
applied to the options after the `parseName` write-back, with the project's
default prefix (`project.prefix || ''`). -/
def builtSelectorFor (env : OrchestratorEnv) (options : DirectiveOptions) : String :=
  match lookupProject env.workspaceProjects options.project with
  | none => ""
  | some project =>
    match env.findModule with
    | .error _ => ""
    | .ok modulePath =>
      buildSelector (resolvedOptions env options project modulePath)
        (projectPrefixOf project)

/-! ### Concrete instances used by the claim theorems

Each `cNAst` value is the parse of the accompanying component text; positions
are character offsets into that text.  The crash of line 64 makes the offsets
irrelevant to the claims settled on these instances, but they are kept
consistent with the texts. -/

/-- C1 instance: a component whose `@Component` metadata has a one-element
`imports` array (`N = 1`). -/
def c1Path : String := "src/app/app.component.ts"

/-- C1 component text: `@Component({ imports: [Bar] })`. -/
def c1Text : String := "@Component(\x7b imports: [Bar] \x7d)"

/-- Parse of `c1Text`: one metadata candidate, the object literal with the
`imports` property; the array's element range ends at offset 26 (after `Bar`). -/
def c1Ast : SourceFileAst :=
  ⟨[TsNode.objectLiteral
      [ObjectLiteralElement.propertyAssignment (PropertyName.identifierName "imports")
        (TsNode.arrayLiteral [TsNode.identifierExpr "Bar"] 26)]]⟩

def c1Parse : String → SourceFileAst := fun _ => c1Ast

def c1Tree : Tree := [(c1Path, c1Text)]

/-- C2 instance: a located non-empty object literal without an `imports`
property (`@Component({ standalone: true })`). -/
def c2Path : String := "src/app/app.component.ts"

def c2Text : String := "@Component(\x7b standalone: true \x7d)"

def c2Ast : SourceFileAst :=
  ⟨[TsNode.objectLiteral
      [ObjectLiteralElement.propertyAssignment (PropertyName.identifierName "standalone")
        TsNode.otherExpr]]⟩

def c2Parse : String → SourceFileAst := fun _ => c2Ast

def c2Tree : Tree := [(c2Path, c2Text)]

/-- C3 instance: a `@Component` declaration whose argument is an empty object
literal (`@Component({})`), i.e. not the expected non-empty structured
argument. -/
def c3Path : String := "src/app/app.component.ts"

def c3Text : String := "@Component(\x7b\x7d)"

def c3Ast : SourceFileAst := ⟨[TsNode.objectLiteral []]⟩

def c3Parse : String → SourceFileAst := fun _ => c3Ast

def c3Tree : Tree := [(c3Path, c3Text)]

/-- C3 amended-claim witness instance: one non-object candidate and one empty
object literal, so no candidate is viable. -/
def c3wSource : SourceFileAst := ⟨[TsNode.otherExpr, TsNode.objectLiteral []]⟩

def c3wTree : Tree := [("c3w.component.ts", "c3w text")]

/-- C4/C10 component text and parse (same shape as C1). -/
def c4Path : String := "src/app/app.component.ts"

def c4ModulePath : String := "src/app/app.module.ts"

def c4Text : String := "@Component(\x7b imports: [Bar] \x7d)"

def c4Ast : SourceFileAst :=
  ⟨[TsNode.objectLiteral
      [ObjectLiteralElement.propertyAssignment (PropertyName.identifierName "imports")
        (TsNode.arrayLiteral [TsNode.identifierExpr "Bar"] 26)]]⟩

def c4Tree : Tree := [(c4Path, c4Text), (c4ModulePath, "module text")]

/-- C4 options: name `foo`, no prefix, no explicit selector. -/
def c4Options : DirectiveOptions :=
  ⟨"foo", none, some "app-project", some "/src/app", none, none, false, false⟩

/-- C4 environment: project default prefix `app`; the collaborators resolve
the module and the app component, validation accepts, and the NgModule rule
touches nothing. -/
def c4Env : OrchestratorEnv :=
  { workspaceProjects := [("app-project", ⟨some "app"⟩)]
    buildDefaultPath := fun _ => "/src/app"
    findModule := .ok c4ModulePath
    parseNamePair := fun p n => (p, n)
    validateSelector := fun _ => true
    appModulePathFn := fun _ => c4Path
    ngModuleTouched := []
    ngModuleRun := fun t => .ok t
    parse := fun _ => c4Ast
    templatePaths := ["src/app/foo.directive.ts"]
    templateRender := fun _ => "" }

/-- C5 instance: an explicit prefix that coincides with the project prefix. -/
def c5Options : DirectiveOptions :=
  ⟨"x", some "app", none, none, none, none, false, false⟩

/-- C6 instance: a two-element `imports` array. -/
def c6Path : String := "src/app/other.component.ts"

def c6Text : String := "@Component(\x7b imports: [AlphaDir, BetaDir] \x7d)"

def c6Ast : SourceFileAst :=
  ⟨[TsNode.objectLiteral
      [ObjectLiteralElement.propertyAssignment (PropertyName.identifierName "imports")
        (TsNode.arrayLiteral
          [TsNode.identifierExpr "AlphaDir", TsNode.identifierExpr "BetaDir"] 41)]]⟩

def c6Parse : String → SourceFileAst := fun _ => c6Ast

def c6Tree : Tree := [(c6Path, c6Text)]

/-- C7 witness instance: the first candidate is an empty object literal (not
viable), the second is viable. -/
def c7wViable : TsNode :=
  TsNode.objectLiteral
    [ObjectLiteralElement.propertyAssignment (PropertyName.identifierName "imports")
      (TsNode.arrayLiteral [] 10)]

def c7wSource : SourceFileAst := ⟨[TsNode.objectLiteral [], c7wViable]⟩

def c7wTree : Tree := [("c7w.component.ts", "c7w text")]

/-- C8 instance (same shape as C1; the rule is re-run against this tree). -/
def c8Path : String := "src/app/app.component.ts"

def c8Text : String := "@Component(\x7b imports: [Bar] \x7d)"

def c8Ast : SourceFileAst :=
  ⟨[TsNode.objectLiteral
      [ObjectLiteralElement.propertyAssignment (PropertyName.identifierName "imports")
        (TsNode.arrayLiteral [TsNode.identifierExpr "Bar"] 26)]]⟩

def c8Parse : String → SourceFileAst := fun _ => c8Ast

def c8Tree : Tree := [(c8Path, c8Text)]

/-- C10 witness options: a caller-supplied non-empty selector. -/
def c10Options : DirectiveOptions :=
  ⟨"foo", none, some "app-project", some "/src/app", none, some "my-attr", false, false⟩

def c10Tree : Tree := [(c4Path, c4Text)]

def c10Env : OrchestratorEnv :=
  { workspaceProjects := [("app-project", ⟨some "app"⟩)]
    buildDefaultPath := fun _ => "/src/app"
    findModule := .ok "src/app/app.module.ts"
    parseNamePair := fun p n => (p, n)
    validateSelector := fun _ => true
    appModulePathFn := fun _ => "src/app/app.component.ts"
    ngModuleTouched := []
    ngModuleRun := fun t => .ok t
    parse := fun _ => c4Ast
    templatePaths := []
    templateRender := fun _ => "" }

/-! ### Helper lemmas -/

/-- `List.find?` returns the first element satisfying the predicate: the list
splits around the hit, with every earlier element failing the predicate. -/
theorem find_first_split {α : Type} (p : α → Bool) (l : List α) (a : α)
    (h : l.find? p = some a) :
    p a = true ∧ ∃ l₁ l₂, l = l₁ ++ a :: l₂ ∧ ∀ x ∈ l₁, p x = false := by
  induction l with
  | nil => simp [List.find?] at h
  | cons b t ih =>
    rcases hb : p b with _ | _
    · rw [List.find?_cons_of_neg _ (by simp [hb])] at h
      obtain ⟨hp, l₁, l₂, rfl, hall⟩ := ih h
      refine ⟨hp, b :: l₁, l₂, rfl, ?_⟩
      intro x hx
      rcases List.mem_cons.mp hx with rfl | hx'
      · exact hb
      · exact hall x hx'
    · rw [List.find?_cons_of_pos _ hb] at h
      cases h
      exact ⟨hb, [], t, rfl, by intro x hx; simp at hx⟩

/-- The decorator edit can never succeed: every run fails, either before a
viable metadata node is located, or at the line 64 dereference. -/
theorem addDirectiveToComponentDecorator_never_succeeds
    (parse : String → SourceFileAst) (tree : Tree)
    (classifiedName directivePath componentPath : String) :
    ∃ e, addDirectiveToComponentDecorator parse tree classifiedName directivePath
        componentPath = .error e := by
  unfold addDirectiveToComponentDecorator
  rcases h1 : treeRead tree componentPath with _ | txt
  · simp only [h1]
    exact ⟨_, rfl⟩
  · simp only [h1]
    rcases h2 : locateComponentMetadata (parse txt) with _ | node
    · simp only [h2]
      exact ⟨_, rfl⟩
    · simp only [h2]
      exact ⟨_, rfl⟩

/-! ### Claim theorems -/

/-- C1: refuted-by-the-code scenario (code bug).  On a component file whose
`@Component` metadata carries a one-element `imports` array literal, the edit
pipeline (`addDirectiveToComponentDecorator` followed by the recorder commit)
does not produce content with two elements: line 64 evaluates
`metadataNode[0].arguments[0]` on the located AST node, dereferences
`undefined`, and the run aborts with a `TypeError` before any `InsertChange`
is computed or committed. -/
theorem c1_pipeline_crashes_instead_of_appending :
    addDirectiveToAppComponent c1Parse c1Path c1Tree
      = .error (.jsTypeError (jsUndefinedReadMessage "arguments")) := by
  rfl

/-- C2: refuted-by-the-code scenario (code bug).  On a component file whose
located `@Component` object literal has no `imports` property, the run fails
with the line 64 `TypeError`, not with the `SchematicsException` naming the
missing `imports` property: the `imports` lookup of lines 70-80 is never
reached. -/
theorem c2_missing_imports_raises_type_error_not_schematics :
    addDirectiveToComponentDecorator c2Parse c2Tree "FooDirective" "./foo.directive"
        c2Path
      = .error (.jsTypeError (jsUndefinedReadMessage "arguments")) ∧
    EditError.jsTypeError (jsUndefinedReadMessage "arguments")
      ≠ EditError.schematics (missingImportsMessage c2Path) := by
  exact ⟨rfl, by decide⟩

/-- C3 counterexample: a file in which a `@Component` declaration is present
but its argument is the empty object literal fails with the
DeclarationNotFound `SchematicsException` of line 60, which differs from the
MalformedDeclaration message the claim predicts: the locator's predicate
(line 56) already requires a non-empty object literal, so such a file never
reaches the line 65-67 check. -/
theorem c3_counterexample_empty_object_literal :
    addDirectiveToComponentDecorator c3Parse c3Tree "FooDirective" "./foo.directive"
        c3Path
      = .error (.schematics (declarationNotFoundMessage c3Path)) ∧
    EditError.schematics (declarationNotFoundMessage c3Path)
      ≠ EditError.schematics (malformedDeclarationMessage c3Path) := by
  exact ⟨rfl, by decide⟩

/-- C3 amended: whenever no `@Component` metadata candidate is a non-empty
object literal (the argument is absent, malformed, or empty), the operation
fails with the DeclarationNotFound error naming the offending file; the
MalformedDeclaration branch is unreachable. -/
theorem c3_nonviable_argument_yields_declaration_not_found
    (source : SourceFileAst) (parse : String → SourceFileAst) (tree : Tree)
    (path txt classifiedName directivePath : String)
    (hread : treeRead tree path = some txt) (hparse : parse txt = source)
    (hviable : (getDecoratorMetadata source "Component" "@angular/core").all
        (fun m => !viableComponentMetadata m) = true) :
    addDirectiveToComponentDecorator parse tree classifiedName directivePath path
      = .error (.schematics (declarationNotFoundMessage path)) := by
  have hnone : locateComponentMetadata source = none := by
    unfold locateComponentMetadata
    refine List.find?_eq_none.mpr ?_
    intro x hx
    have hx' := List.all_eq_true.mp hviable x hx
    simp only [Bool.not_eq_true'] at hx'
    simp [hx']
  unfold addDirectiveToComponentDecorator
  simp only [hread, hparse, hnone]

/-- C3 amended-claim witness at a concrete file whose two metadata candidates
are a non-object expression and an empty object literal. -/
theorem c3_amended_witness :
    addDirectiveToComponentDecorator (fun _ => c3wSource) c3wTree "FooDirective"
        "./foo.directive" "c3w.component.ts"
      = .error (.schematics (declarationNotFoundMessage "c3w.component.ts")) :=
  c3_nonviable_argument_yields_declaration_not_found c3wSource (fun _ => c3wSource)
    c3wTree "c3w.component.ts" "c3w text" "FooDirective" "./foo.directive"
    rfl rfl rfl

/-- C5 counterexample: with an explicit prefix equal to the project prefix
(`name = "x"`, `prefix = some "app"`, `projectPrefix = "app"`), the result
equals the camel-cased projectPrefix-joined name even though the prefix was
explicitly specified, refuting "the result equals the projectPrefix-joined
name only in the second case". -/
theorem c5_counterexample_explicit_prefix_matching_project :
    c5Options.dirPrefix ≠ none ∧
    buildSelector c5Options "app" = strCamelize ("app" ++ "-" ++ c5Options.name) := by
  exact ⟨by decide, rfl⟩

/-- C5 amended: buildSelector returns the camel-cased form of: the explicit
prefix joined to the name when a non-empty prefix is given; the projectPrefix
joined to the name when the prefix is unspecified (`undefined`) and the
projectPrefix is non-empty; the bare name otherwise (in particular for an
explicitly empty prefix).  The explicit non-empty prefix always takes
precedence; the result may coincide with the projectPrefix-joined form
outside the second case only accidentally (e.g. when the explicit prefix
equals the projectPrefix). -/
theorem c5_selector_characterization (options : DirectiveOptions)
    (projectPrefix : String) :
    buildSelector options projectPrefix = strCamelize (
      match options.dirPrefix with
      | some p => if p = "" then options.name else p ++ "-" ++ options.name
      | none => if projectPrefix = "" then options.name
                else projectPrefix ++ "-" ++ options.name) := by
  cases h : options.dirPrefix with
  | some p =>
    by_cases hp : p = ""
    · subst hp
      simp [buildSelector, h, jsTruthyString]
    · simp [buildSelector, h, jsTruthyString, hp]
  | none =>
    by_cases hpp : projectPrefix = ""
    · subst hpp
      simp [buildSelector, h, jsTruthyString]
    · simp [buildSelector, h, jsTruthyString, hpp]

/-- C6: refuted-by-the-code scenario (code bug).  Even on a file with a
matchable `@Component` declaration carrying a two-element `imports` array
literal, no insertion offset is ever computed: the run aborts at line 64 with
a `TypeError` before reaching the offset computation of lines 76-83. -/
theorem c6_offset_never_computed :
    addDirectiveToComponentDecorator c6Parse c6Tree "BazDirective" "./baz.directive"
        c6Path
      = .error (.jsTypeError (jsUndefinedReadMessage "arguments")) := by
  rfl

/-- C8: refuted-by-the-code scenario (code bug).  Re-running the edit rule is
trivially without duplicate insertion because already the first run fails with
the line 64 `TypeError` and never inserts anything: after two runs the
registration fragment does not occur even once in the file content. -/
theorem c8_rerun_inserts_nothing :
    runRuleTwice (addDirectiveToAppComponent c8Parse c8Path) c8Tree
      = .error (.jsTypeError (jsUndefinedReadMessage "arguments")) ∧
    substringOccurs ("[" ++ classifiedNameLiteral ++ "]") c8Text = false := by
  exact ⟨rfl, by decide⟩

/-- C9: the insertion rule built by the orchestrator is independent of the
requested directive name (and of every other option): line 91 passes the
classified name as a fixed SINGLE-quoted literal, so the dollar-brace text is
not interpolated and `options` never reaches the rule body. -/
theorem c9_insertion_rule_ignores_directive_name :
    (∀ (o₁ o₂ : DirectiveOptions) (parse : String → SourceFileAst)
        (appComponentPath : String) (tree : Tree),
        mkAddDirectiveRule o₁ parse appComponentPath tree
          = mkAddDirectiveRule o₂ parse appComponentPath tree) ∧
    classifiedNameLiteral = "$\x7bstrings.classify(options.name)\x7dDirective" :=
  ⟨fun _ _ _ _ _ => rfl, rfl⟩

/-- C7: the declaration locator selects, among the document-order `@Component`
metadata candidates, the first one whose argument is a non-empty object
literal — every candidate before the hit fails the predicate, so later
duplicates are never consulted — and when no candidate qualifies the edit
fails with the DeclarationNotFound `SchematicsException` of line 60. -/
theorem c7_first_viable_candidate_wins_or_not_found
    (source : SourceFileAst) (parse : String → SourceFileAst) (tree : Tree)
    (path txt classifiedName directivePath : String)
    (hread : treeRead tree path = some txt) (hparse : parse txt = source) :
    (∀ node, locateComponentMetadata source = some node →
        viableComponentMetadata node = true ∧
        ∃ skipped rest,
          getDecoratorMetadata source "Component" "@angular/core"
            = skipped ++ node :: rest ∧
          ∀ m ∈ skipped, viableComponentMetadata m = false) ∧
    (locateComponentMetadata source = none →
        addDirectiveToComponentDecorator parse tree classifiedName directivePath path
          = .error (.schematics (declarationNotFoundMessage path))) := by
  constructor
  · intro node h
    exact find_first_split viableComponentMetadata
      (getDecoratorMetadata source "Component" "@angular/core") node h
  · intro hnone
    unfold addDirectiveToComponentDecorator
    simp only [hread, hparse, hnone]

/-- C7 witness: on a file whose candidates are an empty object literal
followed by a viable one, the theorem's hypotheses hold concretely. -/
theorem c7_locator_witness :
    (∀ node, locateComponentMetadata c7wSource = some node →
        viableComponentMetadata node = true ∧
        ∃ skipped rest,
          getDecoratorMetadata c7wSource "Component" "@angular/core"
            = skipped ++ node :: rest ∧
          ∀ m ∈ skipped, viableComponentMetadata m = false) ∧
    (locateComponentMetadata c7wSource = none →
        addDirectiveToComponentDecorator (fun _ => c7wSource) c7wTree "FooDirective"
            "./foo.directive" "c7w.component.ts"
          = .error (.schematics (declarationNotFoundMessage "c7w.component.ts"))) :=
  c7_first_viable_candidate_wins_or_not_found c7wSource (fun _ => c7wSource) c7wTree
    "c7w.component.ts" "c7w text" "FooDirective" "./foo.directive" rfl rfl

/-- C4 counterexample: at the claim's own end-to-end inputs the built selector
is not `app-foo` (buildSelector camelizes), and the run does not insert
`FooDirective`: it aborts with the line 64 `TypeError`. -/
theorem c4_counterexample_selector_and_failure :
    buildSelector c4Options "app" ≠ "app-foo" ∧
    (defaultRule c4Env c4Options c4Tree).2
      = .error (.jsTypeError (jsUndefinedReadMessage "arguments")) := by
  exact ⟨by decide, rfl⟩

/-- C4 amended: end-to-end with name `foo`, no prefix, project prefix `app`
and a target `@Component({ imports: [Bar] })`: the built selector is `appFoo`
(the dash-joined form is camelized) and it is validated; the module and the
component files are parsed; then the run fails with the line 64 `TypeError`
before inserting anything into the imports array and before staging any
templated file (the trace contains no stage event), the identifier the
insertion step was passed being the fixed literal of line 91 rather than
`FooDirective`. -/
theorem c4_end_to_end_actual_behaviour :
    buildSelector c4Options "app" = "appFoo" ∧
    (defaultRule c4Env c4Options c4Tree).1
      = [Event.getWorkspaceEv, Event.findModuleEv, Event.parseNameEv,
         Event.buildSelectorEv, Event.validateSelectorEv "appFoo",
         Event.parseFileEv c4ModulePath, Event.parseFileEv c4Path] ∧
    (defaultRule c4Env c4Options c4Tree).2
      = .error (.jsTypeError (jsUndefinedReadMessage "arguments")) := by
  refine ⟨by decide, by decide, rfl⟩

/-- Elements of an `editFileEv` image are structural. -/
theorem structural_map_edit (l : List String) :
    ∀ e ∈ l.map Event.editFileEv, isStructuralEvent e = true := by
  intro e he
  rcases List.mem_map.mp he with ⟨a, _, rfl⟩
  rfl

/-- Elements of a `stageFileEv` image are structural. -/
theorem structural_map_stage (l : List String) :
    ∀ e ∈ l.map Event.stageFileEv, isStructuralEvent e = true := by
  intro e he
  rcases List.mem_map.mp he with ⟨a, _, rfl⟩
  rfl

/-- Structurality is preserved under list append. -/
theorem structural_append {l₁ l₂ : List Event}
    (h₁ : ∀ e ∈ l₁, isStructuralEvent e = true)
    (h₂ : ∀ e ∈ l₂, isStructuralEvent e = true) :
    ∀ e ∈ l₁ ++ l₂, isStructuralEvent e = true := by
  intro e he
  rcases List.mem_append.mp he with h | h
  · exact h₁ e h
  · exact h₂ e h

/-- Structurality is preserved under cons of a structural head. -/
theorem structural_cons {x : Event} {l : List Event}
    (hx : isStructuralEvent x = true)
    (h : ∀ e ∈ l, isStructuralEvent e = true) :
    ∀ e ∈ x :: l, isStructuralEvent e = true := by
  intro e he
  rcases List.mem_cons.mp he with rfl | h'
  · exact hx
  · exact h e h'

/-- Every event of the chain phase is structural (a parse, edit or stage). -/
theorem chainPhase_structural (env : OrchestratorEnv) (options1 : DirectiveOptions)
    (modulePath : String) (tree : Tree) :
    ∀ e ∈ (chainPhase env options1 modulePath tree).1, isStructuralEvent e = true := by
  unfold chainPhase
  rcases hng : env.ngModuleRun tree with e | tree1
  · simp only [hng]
    exact structural_cons rfl (structural_map_edit _)
  · simp only [hng]
    rcases hins : mkAddDirectiveRule options1 env.parse
        (env.appModulePathFn modulePath) tree1 with e | tree2
    · simp only [hins]
      refine structural_append (structural_cons rfl (structural_map_edit _)) ?_
      intro e he
      simp only [List.mem_singleton] at he
      subst he
      rfl
    · simp only [hins]
      refine structural_append (structural_append
        (structural_append (structural_cons rfl (structural_map_edit _)) ?_) ?_)
        (structural_map_stage _)
      · intro e he
        simp only [List.mem_singleton] at he
        subst he
        rfl
      · intro e he
        simp only [List.mem_singleton] at he
        subst he
        rfl

/-- Trace shape of an orchestration run: either the run aborts before the
selector step (project lookup or module resolution failed), or the trace is
the fixed collaborator prefix — with `buildSelectorEv` present exactly when no
truthy selector was supplied — followed by the validation event carrying the
selector actually used, followed by a tail of structural (parse/edit/stage)
events only. -/
theorem defaultRule_trace_shape (env : OrchestratorEnv) (options : DirectiveOptions)
    (tree : Tree) :
    (defaultRule env options tree).1 = [Event.getWorkspaceEv] ∨
    (defaultRule env options tree).1 = [Event.getWorkspaceEv, Event.findModuleEv] ∨
    ∃ rest, (∀ e ∈ rest, isStructuralEvent e = true) ∧
      ((∃ s, options.selector = some s ∧ jsTruthyString s = true ∧
          (defaultRule env options tree).1
            = [Event.getWorkspaceEv, Event.findModuleEv, Event.parseNameEv,
               Event.validateSelectorEv s] ++ rest) ∨
       ((options.selector = none ∨ options.selector = some "") ∧
          (defaultRule env options tree).1
            = [Event.getWorkspaceEv, Event.findModuleEv, Event.parseNameEv,
               Event.buildSelectorEv,
               Event.validateSelectorEv (builtSelectorFor env options)] ++ rest)) := by
  rcases hproj : lookupProject env.workspaceProjects options.project with _ | project
  · left
    simp [defaultRule, hproj]
  · rcases hm : env.findModule with msg | modulePath
    · right; left
      simp [defaultRule, hproj, hm]
    · right; right
      have hbuilt : builtSelectorFor env options
          = buildSelector (resolvedOptions env options project modulePath)
              (projectPrefixOf project) := by
        simp [builtSelectorFor, hproj, hm]
      rcases hsel : options.selector with _ | s
      · rcases hv : env.validateSelector (buildSelector
            (resolvedOptions env options project modulePath)
            (projectPrefixOf project)) with _ | _
        · refine ⟨[], by intro e he; simp at he, Or.inr ⟨Or.inl rfl, ?_⟩⟩
          simp [defaultRule, hproj, hm, hsel, hv, hbuilt]
        · refine ⟨(chainPhase env (resolvedOptions env options project modulePath)
              modulePath tree).1, chainPhase_structural _ _ _ _,
              Or.inr ⟨Or.inl rfl, ?_⟩⟩
          simp [defaultRule, hproj, hm, hsel, hv, hbuilt]
      · by_cases hts : jsTruthyString s = true
        · rcases hv : env.validateSelector s with _ | _
          · refine ⟨[], by intro e he; simp at he, Or.inl ⟨s, rfl, hts, ?_⟩⟩
            simp [defaultRule, hproj, hm, hsel, hts, hv]
          · refine ⟨(chainPhase env (resolvedOptions env options project modulePath)
                modulePath tree).1, chainPhase_structural _ _ _ _,
                Or.inl ⟨s, rfl, hts, ?_⟩⟩
            simp [defaultRule, hproj, hm, hsel, hts, hv]
        · have hs : s = "" := by
            simpa [jsTruthyString] using hts
          subst hs
          rcases hv : env.validateSelector (buildSelector
              (resolvedOptions env options project modulePath)
              (projectPrefixOf project)) with _ | _
          · refine ⟨[], by intro e he; simp at he, Or.inr ⟨Or.inr rfl, ?_⟩⟩
            simp [defaultRule, hproj, hm, hsel, jsTruthyString, hv, hbuilt]
          · refine ⟨(chainPhase env (resolvedOptions env options project modulePath)
                modulePath tree).1, chainPhase_structural _ _ _ _,
                Or.inr ⟨Or.inr rfl, ?_⟩⟩
            simp [defaultRule, hproj, hm, hsel, jsTruthyString, hv, hbuilt]

/-- C10: a supplied non-empty selector is used verbatim (every validation
event carries it and `buildSelector` is never consulted — no `buildSelectorEv`
occurs); when no selector is supplied every validation event carries the built
selector; and in every run, whatever the options and collaborators, no file is
parsed, edited or staged before the validation call (the trace up to the first
validation event contains no structural event). -/
theorem c10_selector_validated_before_structural_work
    (env : OrchestratorEnv) (options : DirectiveOptions) (tree : Tree) :
    (∀ e ∈ (defaultRule env options tree).1.takeWhile (fun ev => !isValidateEvent ev),
        isStructuralEvent e = false) ∧
    (∀ s, options.selector = some s → s ≠ "" →
        Event.buildSelectorEv ∉ (defaultRule env options tree).1 ∧
        ∀ s', Event.validateSelectorEv s' ∈ (defaultRule env options tree).1 →
          s' = s) ∧
    (options.selector = none →
        ∀ s', Event.validateSelectorEv s' ∈ (defaultRule env options tree).1 →
          s' = builtSelectorFor env options) := by
  rcases defaultRule_trace_shape env options tree with h | h | ⟨rest, hrest, hcase⟩
  · refine ⟨?_, ?_, ?_⟩
    · intro e he
      rw [h] at he
      simp [List.takeWhile_cons, isValidateEvent] at he
      subst he
      rfl
    · intro s hsel hs
      rw [h]
      constructor
      · simp
      · intro s' hmem
        simp at hmem
    · intro hsel s' hmem
      rw [h] at hmem
      simp at hmem
  · refine ⟨?_, ?_, ?_⟩
    · intro e he
      rw [h] at he
      simp [List.takeWhile_cons, isValidateEvent] at he
      rcases he with rfl | rfl <;> rfl
    · intro s hsel hs
      rw [h]
      constructor
      · simp
      · intro s' hmem
        simp at hmem
    · intro hsel s' hmem
      rw [h] at hmem
      simp at hmem
  · rcases hcase with ⟨s0, hsel0, hts0, htr⟩ | ⟨hnoe, htr⟩
    · refine ⟨?_, ?_, ?_⟩
      · intro e he
        rw [htr] at he
        simp [List.takeWhile_cons, isValidateEvent, List.mem_cons] at he
        rcases he with rfl | rfl | rfl <;> rfl
      · intro s hsel hs
        rw [hsel0] at hsel
        cases hsel
        constructor
        · rw [htr]
          intro hmem
          rcases List.mem_append.mp hmem with h4 | h4
          · simp at h4
          · have := hrest _ h4
            simp [isStructuralEvent] at this
        · intro s' hmem
          rw [htr] at hmem
          rcases List.mem_append.mp hmem with h4 | h4
          · simpa using h4
          · have := hrest _ h4
            simp [isStructuralEvent] at this
      · intro hsel
        rw [hsel] at hsel0
        cases hsel0
    · refine ⟨?_, ?_, ?_⟩
      · intro e he
        rw [htr] at he
        simp [List.takeWhile_cons, isValidateEvent, List.mem_cons] at he
        rcases he with rfl | rfl | rfl | rfl <;> rfl
      · intro s hsel hs
        rcases hnoe with hval | hval
        · rw [hsel] at hval
          cases hval
        · rw [hsel] at hval
          cases hval
          exact absurd rfl hs
      · intro hsel s' hmem
        rw [htr] at hmem
        rcases List.mem_append.mp hmem with h4 | h4
        · simpa using h4
        · have := hrest _ h4
          simp [isStructuralEvent] at this

/-- C10 witness: with a caller-supplied non-empty selector, `buildSelector` is
never consulted and every validation event carries the supplied selector
verbatim. -/
theorem c10_witness :
    Event.buildSelectorEv ∉ (defaultRule c10Env c10Options c10Tree).1 ∧
    ∀ s', Event.validateSelectorEv s' ∈ (defaultRule c10Env c10Options c10Tree).1 →
      s' = "my-attr" :=
  (c10_selector_validated_before_structural_work c10Env c10Options c10Tree).2.1
    "my-attr" rfl (by decide)

end DirectiveSchematic
